import Mathlib

/-!
Verification of the analytics module's period-aggregation engine.

The Python views compute time-windowed business reports (dashboard, sales,
pipeline, loyalty, chart series, CSV exports) over optional collaborator data
stores.  This file gives a shallow embedding of those computations:

* calendar dates are `{year, month, day}` triples with a proleptic Gregorian
  ordinal (`toOrdinal`, matching Python `date.toordinal`), `weekday`
  (Monday = 0) and day subtraction (`subDays`, matching `date - timedelta`);
* exact `Decimal`/numeric arithmetic is carried out in `ℚ`;
* each optional Django app (`sales`, `customers`, `inventory`, `leads`,
  `support`, `feedback`, `quotes`, loyalty, segments) becomes an
  `Option`-typed collaborator database, mirroring the
  `try: import ... except ImportError: pass` probing in the views;
* Python `round` (banker's rounding on the exact value) is `pythonRound`.
-/

namespace Analytics

/-! ## Calendar model -/

structure Date where
  year : Nat
  month : Nat
  day : Nat
deriving DecidableEq, Repr

/-- Proleptic Gregorian leap-year rule, as in Python `calendar.isleap`. -/
def isLeap (y : Nat) : Bool :=
  (y % 4 == 0 && y % 100 != 0) || y % 400 == 0

def daysInMonth (y m : Nat) : Nat :=
  if m = 2 then (if isLeap y then 29 else 28)
  else if m = 4 ∨ m = 6 ∨ m = 9 ∨ m = 11 then 30
  else 31

/-- Days strictly before month `m` within year `y` (month 1 has none). -/
def daysBeforeMonth (y : Nat) : Nat → Nat
  | 0 => 0
  | 1 => 0
  | m + 2 => daysBeforeMonth y (m + 1) + daysInMonth y (m + 1)

def daysInYear (y : Nat) : Nat := if isLeap y then 366 else 365

/-- Days strictly before January 1 of year `y` (year 1 is the first year). -/
def daysBeforeYear : Nat → Nat
  | 0 => 0
  | 1 => 0
  | y + 2 => daysBeforeYear (y + 1) + daysInYear (y + 1)

/-- Proleptic Gregorian ordinal: `toOrdinal ⟨1, 1, 1⟩ = 1`, matching
Python `date.toordinal`. -/
def toOrdinal (d : Date) : Nat :=
  daysBeforeYear d.year + daysBeforeMonth d.year d.month + d.day

/-- Python `date.weekday()`: Monday = 0.  January 1 of year 1 (ordinal 1)
is a Monday. -/
def weekday (d : Date) : Nat := (toOrdinal d + 6) % 7

def Date.Valid (d : Date) : Prop :=
  1 ≤ d.year ∧ 1 ≤ d.month ∧ d.month ≤ 12 ∧ 1 ≤ d.day ∧
    d.day ≤ daysInMonth d.year d.month

instance (d : Date) : Decidable d.Valid := by
  unfold Date.Valid; exact inferInstance

/-- The calendar day before `d`. -/
def predDate (d : Date) : Date :=
  if 1 < d.day then ⟨d.year, d.month, d.day - 1⟩
  else if 1 < d.month then ⟨d.year, d.month - 1, daysInMonth d.year (d.month - 1)⟩
  else ⟨d.year - 1, 12, 31⟩

/-- `subDays d k` models Python `d - timedelta(days=k)`. -/
def subDays (d : Date) : Nat → Date
  | 0 => d
  | n + 1 => subDays (predDate d) n

/-! ## Calendar lemmas -/

theorem daysInMonth_pos (y m : Nat) : 1 ≤ daysInMonth y m := by
  unfold daysInMonth
  split
  · split <;> omega
  · split <;> omega

theorem daysBeforeMonth_succ (y m : Nat) (h : 1 ≤ m) :
    daysBeforeMonth y (m + 1) = daysBeforeMonth y m + daysInMonth y m := by
  obtain ⟨k, rfl⟩ : ∃ k, m = k + 1 := ⟨m - 1, by omega⟩
  rfl

theorem daysBeforeMonth_mono (y : Nat) {a b : Nat} (h : a ≤ b) :
    daysBeforeMonth y a ≤ daysBeforeMonth y b := by
  induction b with
  | zero =>
    have : a = 0 := by omega
    subst this; exact Nat.le_refl _
  | succ n ih =>
    rcases Nat.lt_or_ge a (n + 1) with h1 | h2
    · have ha : a ≤ n := by omega
      rcases Nat.eq_zero_or_pos n with h0 | hp
      · subst h0
        have : a = 0 := by omega
        subst this
        exact Nat.le_refl _
      · rw [daysBeforeMonth_succ y n hp]
        have := ih ha
        omega
    · have : a = n + 1 := by omega
      subst this; exact Nat.le_refl _

theorem daysBeforeMonth_twelve (y : Nat) :
    daysBeforeMonth y 12 + 31 = daysInYear y := by
  have s11 : daysBeforeMonth y 12 = daysBeforeMonth y 11 + daysInMonth y 11 :=
    daysBeforeMonth_succ y 11 (by omega)
  have s10 : daysBeforeMonth y 11 = daysBeforeMonth y 10 + daysInMonth y 10 :=
    daysBeforeMonth_succ y 10 (by omega)
  have s9 : daysBeforeMonth y 10 = daysBeforeMonth y 9 + daysInMonth y 9 :=
    daysBeforeMonth_succ y 9 (by omega)
  have s8 : daysBeforeMonth y 9 = daysBeforeMonth y 8 + daysInMonth y 8 :=
    daysBeforeMonth_succ y 8 (by omega)
  have s7 : daysBeforeMonth y 8 = daysBeforeMonth y 7 + daysInMonth y 7 :=
    daysBeforeMonth_succ y 7 (by omega)
  have s6 : daysBeforeMonth y 7 = daysBeforeMonth y 6 + daysInMonth y 6 :=
    daysBeforeMonth_succ y 6 (by omega)
  have s5 : daysBeforeMonth y 6 = daysBeforeMonth y 5 + daysInMonth y 5 :=
    daysBeforeMonth_succ y 5 (by omega)
  have s4 : daysBeforeMonth y 5 = daysBeforeMonth y 4 + daysInMonth y 4 :=
    daysBeforeMonth_succ y 4 (by omega)
  have s3 : daysBeforeMonth y 4 = daysBeforeMonth y 3 + daysInMonth y 3 :=
    daysBeforeMonth_succ y 3 (by omega)
  have s2 : daysBeforeMonth y 3 = daysBeforeMonth y 2 + daysInMonth y 2 :=
    daysBeforeMonth_succ y 2 (by omega)
  have s1 : daysBeforeMonth y 2 = daysBeforeMonth y 1 + daysInMonth y 1 :=
    daysBeforeMonth_succ y 1 (by omega)
  have z : daysBeforeMonth y 1 = 0 := rfl
  have m1 : daysInMonth y 1 = 31 := rfl
  have m3 : daysInMonth y 3 = 31 := rfl
  have m4 : daysInMonth y 4 = 30 := rfl
  have m5 : daysInMonth y 5 = 31 := rfl
  have m6 : daysInMonth y 6 = 30 := rfl
  have m7 : daysInMonth y 7 = 31 := rfl
  have m8 : daysInMonth y 8 = 31 := rfl
  have m9 : daysInMonth y 9 = 30 := rfl
  have m10 : daysInMonth y 10 = 31 := rfl
  have m11 : daysInMonth y 11 = 30 := rfl
  have m2 : daysInMonth y 2 = if isLeap y then 29 else 28 := rfl
  have hy : daysInYear y = if isLeap y then 366 else 365 := rfl
  by_cases hl : isLeap y
  · rw [s11, s10, s9, s8, s7, s6, s5, s4, s3, s2, s1, z, m1, m2, m3, m4, m5,
      m6, m7, m8, m9, m10, m11, hy, if_pos hl, if_pos hl]
  · rw [s11, s10, s9, s8, s7, s6, s5, s4, s3, s2, s1, z, m1, m2, m3, m4, m5,
      m6, m7, m8, m9, m10, m11, hy, if_neg hl, if_neg hl]

theorem daysBeforeYear_succ (y : Nat) (h : 1 ≤ y) :
    daysBeforeYear (y + 1) = daysBeforeYear y + daysInYear y := by
  obtain ⟨k, rfl⟩ : ∃ k, y = k + 1 := ⟨y - 1, by omega⟩
  rfl

theorem daysBeforeYear_le_one (y : Nat) (h : y ≤ 1) : daysBeforeYear y = 0 := by
  interval_cases y <;> rfl

theorem predDate_exact (d : Date) (hv : d.Valid) (h2 : 2 ≤ toOrdinal d) :
    (predDate d).Valid ∧ toOrdinal (predDate d) + 1 = toOrdinal d := by
  obtain ⟨hy, hm1, hm2, hd1, hd2⟩ := hv
  unfold predDate
  by_cases hday : 1 < d.day
  · rw [if_pos hday]
    constructor
    · unfold Date.Valid
      dsimp only
      exact ⟨hy, hm1, hm2, by omega, by omega⟩
    · unfold toOrdinal
      dsimp only
      omega
  · rw [if_neg hday]
    by_cases hmon : 1 < d.month
    · rw [if_pos hmon]
      have hsucc : daysBeforeMonth d.year d.month =
          daysBeforeMonth d.year (d.month - 1) + daysInMonth d.year (d.month - 1) := by
        have h := daysBeforeMonth_succ d.year (d.month - 1) (by omega)
        rw [Nat.sub_add_cancel (by omega)] at h
        exact h
      constructor
      · unfold Date.Valid
        dsimp only
        exact ⟨hy, by omega, by omega, daysInMonth_pos _ _, Nat.le_refl _⟩
      · unfold toOrdinal
        dsimp only
        omega
    · rw [if_neg hmon]
      have hm : d.month = 1 := by omega
      have hd : d.day = 1 := by omega
      have hdB : daysBeforeMonth d.year 1 = 0 := rfl
      have hypos : 2 ≤ d.year := by
        by_contra hcon
        have hle : d.year ≤ 1 := by omega
        have h0 := daysBeforeYear_le_one d.year hle
        unfold toOrdinal at h2
        rw [hm, hd, hdB] at h2
        omega
      have hYsucc : daysBeforeYear d.year =
          daysBeforeYear (d.year - 1) + daysInYear (d.year - 1) := by
        have h := daysBeforeYear_succ (d.year - 1) (by omega)
        rw [Nat.sub_add_cancel (by omega)] at h
        exact h
      have h1231 := daysBeforeMonth_twelve (d.year - 1)
      have hdim : daysInMonth (d.year - 1) 12 = 31 := rfl
      constructor
      · unfold Date.Valid
        dsimp only
        exact ⟨by omega, by omega, by omega, by omega, by rw [hdim]⟩
      · unfold toOrdinal
        dsimp only
        rw [hm, hd, hdB]
        omega

theorem subDays_exact : ∀ (k : Nat) (d : Date), d.Valid → k < toOrdinal d →
    (subDays d k).Valid ∧ toOrdinal (subDays d k) + k = toOrdinal d := by
  intro k
  induction k with
  | zero => exact fun d hv _ => ⟨hv, rfl⟩
  | succ n ih =>
    intro d hv hk
    have h2 : 2 ≤ toOrdinal d := by omega
    have hp := predDate_exact d hv h2
    have hrw : subDays d (n + 1) = subDays (predDate d) n := rfl
    rw [hrw]
    have hlt : n < toOrdinal (predDate d) := by omega
    have hrec := ih (predDate d) hp.1 hlt
    exact ⟨hrec.1, by omega⟩

theorem daysBeforeYear_ge (y : Nat) (h : 2 ≤ y) : 365 ≤ daysBeforeYear y := by
  induction y with
  | zero => omega
  | succ n ih =>
    rcases Nat.lt_or_ge n 2 with h1 | h2
    · have hn : n = 1 := by omega
      subst hn; decide
    · rw [daysBeforeYear_succ n (by omega)]
      have := ih h2
      omega

theorem toOrdinal_ge_366 (d : Date) (hv : d.Valid) (hy : 2 ≤ d.year) :
    366 ≤ toOrdinal d := by
  obtain ⟨_, _, _, hd1, _⟩ := hv
  have := daysBeforeYear_ge d.year hy
  unfold toOrdinal
  omega

/-! ## Period resolver (`views._get_date_range`, `views._get_previous_date_range`) -/

/-- Embeds `_get_date_range(period)`; `today` is the evaluation date
`timezone.now().date()`. -/
def get_date_range (period : String) (today : Date) : Date × Date :=
  if period = "today" then (today, today)
  else if period = "week" then (subDays today (weekday today), today)
  else if period = "month" then ({today with day := 1}, today)
  else if period = "quarter" then
    ({today with month := (today.month - 1) / 3 * 3 + 1, day := 1}, today)
  else if period = "year" then ({today with month := 1, day := 1}, today)
  else ({today with day := 1}, today)

/-- Embeds `_get_previous_date_range(start_date, end_date)`. -/
def get_previous_date_range (start_date end_date : Date) : Date × Date :=
  let delta := toOrdinal end_date - toOrdinal start_date
  let prev_end := subDays start_date 1
  let prev_start := subDays prev_end delta
  (prev_start, prev_end)

/-- C1: for every valid (start, end) date pair with start ≤ end (and the window
inside the calendar, far from year 1), the comparison period computed by
`_get_previous_date_range` has the same length as the original window and is
adjacent to it: `prev_end + 1 day = start` and
`prev_end - prev_start = end - start` (day counts via `toOrdinal`). -/
theorem claim_C1_previous_range (s e : Date) (hs : s.Valid)
    (hle : toOrdinal s ≤ toOrdinal e)
    (hroom : toOrdinal e + 1 < 2 * toOrdinal s) :
    toOrdinal (get_previous_date_range s e).2 + 1 = toOrdinal s ∧
    toOrdinal (get_previous_date_range s e).2 -
        toOrdinal (get_previous_date_range s e).1 =
      toOrdinal e - toOrdinal s := by
  have h1s : 1 < toOrdinal s := by omega
  have hpe := subDays_exact 1 s hs (by omega)
  have hps := subDays_exact (toOrdinal e - toOrdinal s) (subDays s 1) hpe.1
    (by omega)
  constructor
  · show toOrdinal (subDays s 1) + 1 = toOrdinal s
    omega
  · show toOrdinal (subDays s 1) -
        toOrdinal (subDays (subDays s 1) (toOrdinal e - toOrdinal s)) =
      toOrdinal e - toOrdinal s
    omega

theorem claim_C1_previous_range_witness :
    toOrdinal (get_previous_date_range ⟨2, 3, 10⟩ ⟨2, 3, 20⟩).2 + 1 =
        toOrdinal ⟨2, 3, 10⟩ ∧
    toOrdinal (get_previous_date_range ⟨2, 3, 10⟩ ⟨2, 3, 20⟩).2 -
        toOrdinal (get_previous_date_range ⟨2, 3, 10⟩ ⟨2, 3, 20⟩).1 =
      toOrdinal ⟨2, 3, 20⟩ - toOrdinal ⟨2, 3, 10⟩ :=
  claim_C1_previous_range ⟨2, 3, 10⟩ ⟨2, 3, 20⟩ (by decide) (by decide)
    (by decide)

/-- C2: for every period string, `_get_date_range` returns a pair whose end is
the evaluation date `today` and whose start is not after the end; any
unrecognized string yields the same range as "month". -/
theorem claim_C2_date_range (period : String) (today : Date)
    (hv : today.Valid) (hy : 2 ≤ today.year) :
    (get_date_range period today).2 = today ∧
    toOrdinal (get_date_range period today).1 ≤
      toOrdinal (get_date_range period today).2 ∧
    (period ∉ ["today", "week", "month", "quarter", "year"] →
      get_date_range period today = get_date_range "month" today) := by
  obtain ⟨hvy, hm1, hm2, hd1, hd2⟩ := hv
  by_cases h1 : period = "today"
  · subst h1
    exact ⟨rfl, Nat.le_refl _, fun hmem => absurd (by decide) hmem⟩
  by_cases h2 : period = "week"
  · subst h2
    refine ⟨rfl, ?_, fun hmem => absurd (by decide) hmem⟩
    show toOrdinal (subDays today (weekday today)) ≤ toOrdinal today
    have hw : weekday today < 7 := Nat.mod_lt _ (by omega)
    have h366 := toOrdinal_ge_366 today ⟨hvy, hm1, hm2, hd1, hd2⟩ hy
    have hsub := subDays_exact (weekday today) today ⟨hvy, hm1, hm2, hd1, hd2⟩
      (by omega)
    omega
  by_cases h3 : period = "month"
  · subst h3
    refine ⟨rfl, ?_, fun hmem => absurd (by decide) hmem⟩
    show toOrdinal ⟨today.year, today.month, 1⟩ ≤ toOrdinal today
    unfold toOrdinal
    simp only []
    omega
  by_cases h4 : period = "quarter"
  · subst h4
    refine ⟨rfl, ?_, fun hmem => absurd (by decide) hmem⟩
    show toOrdinal ⟨today.year, (today.month - 1) / 3 * 3 + 1, 1⟩ ≤
      toOrdinal today
    have hq : (today.month - 1) / 3 * 3 + 1 ≤ today.month := by
      have := Nat.div_mul_le_self (today.month - 1) 3
      omega
    have hmono := daysBeforeMonth_mono today.year hq
    unfold toOrdinal
    simp only []
    omega
  by_cases h5 : period = "year"
  · subst h5
    refine ⟨rfl, ?_, fun hmem => absurd (by decide) hmem⟩
    show toOrdinal ⟨today.year, 1, 1⟩ ≤ toOrdinal today
    have hz : daysBeforeMonth today.year 1 = 0 := rfl
    unfold toOrdinal
    simp only []
    omega
  · have hred : get_date_range period today = ({today with day := 1}, today) := by
      unfold get_date_range
      rw [if_neg h1, if_neg h2, if_neg h3, if_neg h4, if_neg h5]
    refine ⟨by rw [hred], ?_, fun _ => by rw [hred]; rfl⟩
    rw [hred]
    show toOrdinal ⟨today.year, today.month, 1⟩ ≤ toOrdinal today
    unfold toOrdinal
    simp only []
    omega

theorem claim_C2_date_range_witness :
    ((get_date_range "week" ⟨2, 5, 15⟩).2 = ⟨2, 5, 15⟩ ∧
      toOrdinal (get_date_range "week" ⟨2, 5, 15⟩).1 ≤
        toOrdinal (get_date_range "week" ⟨2, 5, 15⟩).2) ∧
    get_date_range "bogus" ⟨2, 5, 15⟩ = get_date_range "month" ⟨2, 5, 15⟩ := by
  have h1 := claim_C2_date_range "week" ⟨2, 5, 15⟩ (by decide) (by decide)
  have h2 := claim_C2_date_range "bogus" ⟨2, 5, 15⟩ (by decide) (by decide)
  exact ⟨⟨h1.1, h1.2.1⟩, h2.2.2 (by decide)⟩

/-! ## Numeric, string and list helpers -/

/-- Floor of a rational (denominators are positive, so floored integer
division of numerator by denominator). -/
def ratFloor (q : ℚ) : ℤ := Int.fdiv q.num (q.den : ℤ)

/-- Python 3 `round` on the exact value: nearest integer, ties to even. -/
def pythonRound (q : ℚ) : ℤ :=
  if q - (ratFloor q : ℚ) < 1 / 2 then ratFloor q
  else if 1 / 2 < q - (ratFloor q : ℚ) then ratFloor q + 1
  else if ratFloor q % 2 = 0 then ratFloor q else ratFloor q + 1

def pad2 (n : Nat) : String := if n < 10 then "0" ++ toString n else toString n

def pad4 (n : Nat) : String :=
  if n < 10 then "000" ++ toString n
  else if n < 100 then "00" ++ toString n
  else if n < 1000 then "0" ++ toString n
  else toString n

/-- Python `str(date)` / `strftime("%Y-%m-%d")`. -/
def dateIso (d : Date) : String :=
  pad4 d.year ++ "-" ++ pad2 d.month ++ "-" ++ pad2 d.day

/-- `strftime("%b")` month abbreviation (C locale). -/
def monthAbbrev : Nat → String
  | 1 => "Jan"
  | 2 => "Feb"
  | 3 => "Mar"
  | 4 => "Apr"
  | 5 => "May"
  | 6 => "Jun"
  | 7 => "Jul"
  | 8 => "Aug"
  | 9 => "Sep"
  | 10 => "Oct"
  | 11 => "Nov"
  | 12 => "Dec"
  | _ => "???"

/-- A timestamp: calendar date plus minute of day (the views only ever use
the date component, the hour, and the total ordering of timestamps). -/
structure DateTime where
  date : Date
  minute_of_day : Nat
deriving DecidableEq, Repr

def DateTime.key (t : DateTime) : Nat := toOrdinal t.date * 1440 + t.minute_of_day

def DateTime.hour (t : DateTime) : Nat := t.minute_of_day / 60

def DateTime.minute (t : DateTime) : Nat := t.minute_of_day % 60

/-- `strftime("%Y-%m-%d %H:%M")`. -/
def dtFormat (t : DateTime) : String :=
  dateIso t.date ++ " " ++ pad2 t.hour ++ ":" ++ pad2 t.minute

/-- `created_at__date__gte=s, created_at__date__lte=e`. -/
def dateInRange (d s e : Date) : Bool :=
  decide (toOrdinal s ≤ toOrdinal d) && decide (toOrdinal d ≤ toOrdinal e)

def dateLeB (a b : Date) : Bool := decide (toOrdinal a ≤ toOrdinal b)

/-- Stable insertion into a sorted list: `a` goes before the first element
`b` with `le a b`. -/
def insertBy {α : Type} (le : α → α → Bool) (a : α) : List α → List α
  | [] => [a]
  | b :: l => if le a b then a :: b :: l else b :: insertBy le a l

/-- Stable insertion sort, models Django `order_by` (stable on ties when
`le` is chosen non-strict in the original order). -/
def sortBy {α : Type} (le : α → α → Bool) : List α → List α
  | [] => []
  | a :: l => insertBy le a (sortBy le l)

theorem length_insertBy {α : Type} (le : α → α → Bool) (a : α) :
    ∀ l : List α, (insertBy le a l).length = l.length + 1 := by
  intro l
  induction l with
  | nil => rfl
  | cons b t ih =>
    unfold insertBy
    split
    · rfl
    · simp only [List.length_cons, ih]

theorem length_sortBy {α : Type} (le : α → α → Bool) :
    ∀ l : List α, (sortBy le l).length = l.length := by
  intro l
  induction l with
  | nil => rfl
  | cons a t ih =>
    unfold sortBy
    rw [length_insertBy, ih]
    rfl

/-- First-occurrence deduplication, models the distinct grouping keys of a
Django `values(...).annotate(...)` query in row order. -/
def dedup {α : Type} [DecidableEq α] : List α → List α
  | [] => []
  | a :: l => a :: (dedup l).filter (fun b => decide (b ≠ a))

/-- `dict(CHOICES).get(key, key)`. -/
def lookupChoice (choices : List (String × String)) (k : String) : String :=
  match choices.find? (fun c => c.1 == k) with
  | some c => c.2
  | none => k

/-! ## Collaborator data model

Each optional Django app consumed by the analytics views is modelled as a
record of its rows; an absent app is `Option.none` at the call sites,
mirroring `try: import ... except ImportError: pass`. -/

structure Sale where
  hub_id : Nat
  is_deleted : Bool
  status : String
  created_at : DateTime
  sale_number : String
  employee_name : Option String
  customer_name : String
  payment_method_id : Option Nat
  payment_method_name : String
  subtotal : ℚ
  tax_amount : ℚ
  total : ℚ
  status_display : String
deriving DecidableEq, Repr

structure SaleItem where
  hub_id : Nat
  is_deleted : Bool
  sale_status : String
  sale_created_at : DateTime
  product_name : Option String
  product_sku : String
  quantity : ℚ
  line_total : ℚ
deriving DecidableEq, Repr

structure PaymentMethod where
  id : Nat
  hub_id : Nat
  is_deleted : Bool
  is_active : Bool
  name : String
deriving DecidableEq, Repr

structure SalesDB where
  sales : List Sale
  items : List SaleItem
  payment_methods : List PaymentMethod
deriving DecidableEq, Repr

structure Customer where
  hub_id : Nat
  is_deleted : Bool
  created_at : DateTime
  name : String
  email : String
  phone : String
  total_purchases : Nat
  total_spent : ℚ
  last_purchase_date : Option DateTime
  lifecycle_stage : String
  source : String
deriving DecidableEq, Repr

structure CustomersDB where
  customers : List Customer
  lifecycle_stage_choices : List (String × String)
  source_choices : List (String × String)
deriving DecidableEq, Repr

structure Product where
  hub_id : Nat
  is_deleted : Bool
  is_active : Bool
  stock : Int
  low_stock_threshold : Int
deriving DecidableEq, Repr

structure InventoryDB where
  products : List Product
deriving DecidableEq, Repr

structure Lead where
  hub_id : Nat
  is_deleted : Bool
  status : String
  value : ℚ
  created_at : DateTime
  won_date : Option DateTime
  lost_date : Option DateTime
  stage_id : Nat
  source : String
  loss_reason_name : Option String
deriving DecidableEq, Repr

structure Pipeline where
  id : Nat
  hub_id : Nat
  is_deleted : Bool
  is_default : Bool
deriving DecidableEq, Repr

structure PipelineStage where
  id : Nat
  hub_id : Nat
  is_deleted : Bool
  pipeline_id : Nat
  order : Nat
  name : String
  color : String
  probability : Nat
deriving DecidableEq, Repr

structure LeadsDB where
  leads : List Lead
  pipelines : List Pipeline
  stages : List PipelineStage
  source_choices : List (String × String)
deriving DecidableEq, Repr

structure Quote where
  hub_id : Nat
  is_deleted : Bool
  created_at : DateTime
  status : String
  total : ℚ
deriving DecidableEq, Repr

structure QuotesDB where
  quotes : List Quote
deriving DecidableEq, Repr

structure Ticket where
  hub_id : Nat
  is_deleted : Bool
  status : String
deriving DecidableEq, Repr

structure SupportDB where
  tickets : List Ticket
deriving DecidableEq, Repr

structure FeedbackResponse where
  hub_id : Nat
  is_deleted : Bool
  form_type : String
  score : Option Int
  created_at : DateTime
deriving DecidableEq, Repr

structure FeedbackDB where
  responses : List FeedbackResponse
deriving DecidableEq, Repr

/-- `models.AnalyticsSettings`: per-hub analytics configuration row. -/
structure AnalyticsSettings where
  default_period : String
  default_currency : String
  show_profit : Bool
  show_tax_breakdown : Bool
  compare_previous_period : Bool
  fiscal_year_start_month : Int
deriving DecidableEq, Repr

/-- Model-field defaults of `AnalyticsSettings` (used by `get_or_create`). -/
def default_settings : AnalyticsSettings :=
  { default_period := "month"
    default_currency := "EUR"
    show_profit := true
    show_tax_breakdown := false
    compare_previous_period := true
    fiscal_year_start_month := 1 }

/-! ## Shared query predicates -/

/-- `Sale.objects.filter(hub_id=hub, is_deleted=False, status="completed",
created_at__date__gte=s, created_at__date__lte=e)`. -/
def sale_completed_in_window (hub : Nat) (s e : Date) (x : Sale) : Bool :=
  x.hub_id == hub && !x.is_deleted && x.status == "completed" &&
    dateInRange x.created_at.date s e

/-- The CSV export's sale filter: same as above but with **no** status
condition (`export_csv`, sales branch). -/
def sale_in_export_window (hub : Nat) (s e : Date) (x : Sale) : Bool :=
  x.hub_id == hub && !x.is_deleted && dateInRange x.created_at.date s e

/-- `SaleItem.objects.filter(hub_id=hub, is_deleted=False,
sale__status="completed", sale__created_at__date in range)`. -/
def item_completed_in_window (hub : Nat) (s e : Date) (i : SaleItem) : Bool :=
  i.hub_id == hub && !i.is_deleted && i.sale_status == "completed" &&
    dateInRange i.sale_created_at.date s e

/-! ## Comparison calculator -/

/-- The dashboard's period-over-period change:
`if settings.compare_previous_period and prev > 0:
change = float((current - prev) / prev * 100)`, else left `None`. -/
def percent_change_of (compare : Bool) (current previous : ℚ) : Option ℚ :=
  if compare = true ∧ 0 < previous then
    some ((current - previous) / previous * 100)
  else none

/-! ## NPS -/

/-- The base NPS queryset filter: `form__form_type="nps_10"`,
`score__isnull=False`, hub scope, not deleted. -/
def nps_response_in (hub : Nat) (r : FeedbackResponse) : Bool :=
  r.hub_id == hub && !r.is_deleted && r.form_type == "nps_10" && r.score.isSome

def score_ge (r : FeedbackResponse) (k : Int) : Bool :=
  match r.score with
  | some v => decide (k ≤ v)
  | none => false

def score_le (r : FeedbackResponse) (k : Int) : Bool :=
  match r.score with
  | some v => decide (v ≤ k)
  | none => false

/-- The NPS reduction over an already-filtered queryset: promoters have
score ≥ 9, detractors ≤ 6, `round((promoters - detractors) / total * 100)`,
`None` when there are no responses (the code guards twice: `.exists()` and
`total_responses > 0`). -/
def nps_formula (qs : List FeedbackResponse) : Option ℤ :=
  if qs.isEmpty then none
  else
    let promoters := (qs.filter (fun r => score_ge r 9)).length
    let detractors := (qs.filter (fun r => score_le r 6)).length
    let total := qs.length
    if 0 < total then
      some (pythonRound ((((promoters : ℤ) - (detractors : ℤ)) : ℚ) /
        (total : ℚ) * 100))
    else none

/-- The period NPS computed identically in `dashboard` (feedback section) and
`loyalty_report` (overall NPS): the base NPS queryset restricted to the
window, then `nps_formula`. -/
def nps_of (responses : List FeedbackResponse) (hub : Nat) (s e : Date) :
    Option ℤ :=
  nps_formula (responses.filter
    (fun r => nps_response_in hub r && dateInRange r.created_at.date s e))

/-- Feedback section of `loyalty_report` (its `avg_nps` output). -/
def loyalty_report_avg_nps (hub : Nat) (s e : Date) :
    Option FeedbackDB → Option ℤ
  | none => none
  | some db => nps_of db.responses hub s e

/-! ## Dashboard aggregator (`views.dashboard`) -/

structure ProductAgg where
  product_name : Option String
  total_qty : ℚ
  total_revenue : ℚ
deriving DecidableEq, Repr

/-- `SaleItem.values("product_name").annotate(total_qty=Sum, total_revenue=Sum)
.order_by("-total_revenue")[:n]`. -/
def top_products_of (items : List SaleItem) (hub : Nat) (s e : Date) (n : Nat) :
    List ProductAgg :=
  let qs := items.filter (item_completed_in_window hub s e)
  let keys := dedup (qs.map (fun i => i.product_name))
  let aggs := keys.map (fun k =>
    let grp := qs.filter (fun i => i.product_name == k)
    { product_name := k
      total_qty := (grp.map (fun i => i.quantity)).sum
      total_revenue := (grp.map (fun i => i.line_total)).sum : ProductAgg })
  (sortBy (fun a b => decide (b.total_revenue ≤ a.total_revenue)) aggs).take n

structure DashSales where
  total_sales : Nat
  total_revenue : ℚ
  avg_ticket : ℚ
  top_products : List ProductAgg
  prev_sales : Nat
  prev_revenue : ℚ
deriving DecidableEq, Repr

/-- Sales section of `dashboard` (lines 98–143): totals, average ticket with
`max(total_sales, 1)` denominator, top products, and — only when comparison
is enabled — the previous-period totals. -/
def dash_sales (hub : Nat) (s e ps pe : Date) (compare : Bool) :
    Option SalesDB → DashSales
  | none => ⟨0, 0, 0, [], 0, 0⟩
  | some db =>
    let base := db.sales.filter (sale_completed_in_window hub s e)
    let total_sales := base.length
    let total_revenue := (base.map (fun x => x.total)).sum
    let avg_ticket := total_revenue / ((max total_sales 1 : Nat) : ℚ)
    let tops := top_products_of db.items hub s e 5
    let prev :=
      if compare then
        let prev_qs := db.sales.filter (sale_completed_in_window hub ps pe)
        (prev_qs.length, (prev_qs.map (fun x => x.total)).sum)
      else ((0 : Nat), (0 : ℚ))
    { total_sales := total_sales
      total_revenue := total_revenue
      avg_ticket := avg_ticket
      top_products := tops
      prev_sales := prev.1
      prev_revenue := prev.2 }

/-- Customers section of `dashboard`: count of customers created in the
window. -/
def dash_new_customers (hub : Nat) (s e : Date) : Option CustomersDB → Nat
  | none => 0
  | some db =>
    (db.customers.filter (fun c =>
      c.hub_id == hub && !c.is_deleted &&
        dateInRange c.created_at.date s e)).length

/-- Inventory section of `dashboard`: active products with
`stock <= low_stock_threshold` (the `.extra`/`F`-expression fallback pair
implements this single contract). -/
def dash_low_stock (hub : Nat) : Option InventoryDB → Nat
  | none => 0
  | some db =>
    (db.products.filter (fun p =>
      p.hub_id == hub && !p.is_deleted && p.is_active &&
        decide (p.stock ≤ p.low_stock_threshold))).length

structure DashLeads where
  has_leads_module : Bool
  pipeline_value : ℚ
  open_leads : Nat
deriving DecidableEq, Repr

/-- Leads section of `dashboard`: open-lead count and open pipeline value. -/
def dash_leads (hub : Nat) : Option LeadsDB → DashLeads
  | none => ⟨false, 0, 0⟩
  | some db =>
    let qs := db.leads.filter (fun l =>
      l.hub_id == hub && !l.is_deleted && l.status == "open")
    ⟨true, (qs.map (fun l => l.value)).sum, qs.length⟩

structure DashSupport where
  has_support_module : Bool
  open_tickets : Nat
deriving DecidableEq, Repr

/-- Support section of `dashboard`: open/in-progress/waiting tickets. -/
def dash_support (hub : Nat) : Option SupportDB → DashSupport
  | none => ⟨false, 0⟩
  | some db =>
    ⟨true, (db.tickets.filter (fun t =>
      t.hub_id == hub && !t.is_deleted &&
        ["open", "in_progress", "waiting_customer"].contains t.status)).length⟩

structure DashFeedback where
  has_feedback_module : Bool
  avg_nps : Option ℤ
deriving DecidableEq, Repr

/-- Feedback section of `dashboard` (lines 206–226). -/
def dash_feedback (hub : Nat) (s e : Date) : Option FeedbackDB → DashFeedback
  | none => ⟨false, none⟩
  | some db => ⟨true, nps_of db.responses hub s e⟩

structure DashboardResult where
  period : String
  start_date : Date
  end_date : Date
  total_revenue : ℚ
  total_sales : Nat
  avg_ticket : ℚ
  top_products : List ProductAgg
  new_customers : Nat
  low_stock_count : Nat
  revenue_change : Option ℚ
  sales_change : Option ℚ
  prev_revenue : ℚ
  prev_sales : Nat
  pipeline_value : ℚ
  open_leads : Nat
  open_tickets : Nat
  avg_nps : Option ℤ
  has_leads_module : Bool
  has_support_module : Bool
  has_feedback_module : Bool
  has_loyalty_module : Bool
  has_segments_module : Bool
deriving DecidableEq, Repr

/-- The dashboard view's returned context (`views.dashboard`).  The loyalty
and segments apps are only probed for presence, so they are `Option Unit`. -/
def dashboard (hub : Nat) (stg : AnalyticsSettings) (period_param : Option String)
    (today : Date) (salesDB : Option SalesDB) (customersDB : Option CustomersDB)
    (inventoryDB : Option InventoryDB) (leadsDB : Option LeadsDB)
    (supportDB : Option SupportDB) (feedbackDB : Option FeedbackDB)
    (loyaltyDB : Option Unit) (segmentsDB : Option Unit) : DashboardResult :=
  let period := period_param.getD stg.default_period
  let dr := get_date_range period today
  let pr := get_previous_date_range dr.1 dr.2
  let ss := dash_sales hub dr.1 dr.2 pr.1 pr.2 stg.compare_previous_period salesDB
  let ld := dash_leads hub leadsDB
  let sp := dash_support hub supportDB
  let fb := dash_feedback hub dr.1 dr.2 feedbackDB
  { period := period
    start_date := dr.1
    end_date := dr.2
    total_revenue := ss.total_revenue
    total_sales := ss.total_sales
    avg_ticket := ss.avg_ticket
    top_products := ss.top_products
    new_customers := dash_new_customers hub dr.1 dr.2 customersDB
    low_stock_count := dash_low_stock hub inventoryDB
    revenue_change := percent_change_of stg.compare_previous_period
      ss.total_revenue ss.prev_revenue
    sales_change := percent_change_of stg.compare_previous_period
      (ss.total_sales : ℚ) (ss.prev_sales : ℚ)
    prev_revenue := ss.prev_revenue
    prev_sales := ss.prev_sales
    pipeline_value := ld.pipeline_value
    open_leads := ld.open_leads
    open_tickets := sp.open_tickets
    avg_nps := fb.avg_nps
    has_leads_module := ld.has_leads_module
    has_support_module := sp.has_support_module
    has_feedback_module := fb.has_feedback_module
    has_loyalty_module := loyaltyDB.isSome
    has_segments_module := segmentsDB.isSome }

/-! ## Sales report aggregator (`views.sales_report`) -/

structure DayAgg where
  date : String
  revenue : ℚ
  count : Nat
deriving DecidableEq, Repr

structure PmEntry where
  name : String
  count : Nat
  total : ℚ
  percentage : ℤ
deriving DecidableEq, Repr

structure EmpAgg where
  name : String
  count : Nat
  revenue : ℚ
deriving DecidableEq, Repr

structure HourAgg where
  hour : String
  count : Nat
  revenue : ℚ
deriving DecidableEq, Repr

structure SalesReportResult where
  period : String
  start_date : Date
  end_date : Date
  total_revenue : ℚ
  total_sales : Nat
  total_tax : ℚ
  revenue_by_day : List DayAgg
  payment_breakdown : List PmEntry
  sales_by_employee : List EmpAgg
  hourly_distribution : List HourAgg
deriving DecidableEq, Repr

/-- The sales report view.  Notes on the embedding:
* `revenue_by_day` groups completed sales by calendar day (`TruncDay`),
  ascending;
* `payment_breakdown` iterates the hub's active payment methods in row
  order (the view builds a dict keyed by method name) and keeps methods with
  at least one sale;
* `sales_by_employee` groups by employee name, descending revenue; a missing
  or empty name renders as "Unknown" (`row["employee__name"] or _("Unknown")`);
* the view groups by `TruncHour` (day and hour) and then merges the groups
  into 24 hour-of-day buckets by summing counts and revenues, which equals
  filtering the base queryset by hour of day directly. -/
def sales_report (hub : Nat) (stg : AnalyticsSettings)
    (period_param : Option String) (today : Date)
    (salesDB : Option SalesDB) : SalesReportResult :=
  let period := period_param.getD stg.default_period
  let dr := get_date_range period today
  match salesDB with
  | none =>
    { period := period
      start_date := dr.1
      end_date := dr.2
      total_revenue := 0
      total_sales := 0
      total_tax := 0
      revenue_by_day := []
      payment_breakdown := []
      sales_by_employee := []
      hourly_distribution := [] }
  | some db =>
    let base := db.sales.filter (sale_completed_in_window hub dr.1 dr.2)
    let total_sales := base.length
    let total_revenue := (base.map (fun x => x.total)).sum
    let total_tax := (base.map (fun x => x.tax_amount)).sum
    let days := sortBy dateLeB (dedup (base.map (fun x => x.created_at.date)))
    let revenue_by_day := days.map (fun d =>
      let grp := base.filter (fun x => x.created_at.date == d)
      { date := dateIso d
        revenue := (grp.map (fun x => x.total)).sum
        count := grp.length : DayAgg })
    let payment_breakdown :=
      (db.payment_methods.filter (fun pm =>
        pm.hub_id == hub && !pm.is_deleted && pm.is_active)).filterMap (fun pm =>
        let pm_sales := base.filter (fun x => x.payment_method_id == some pm.id)
        let pm_count := pm_sales.length
        if 0 < pm_count then
          some { name := pm.name
                 count := pm_count
                 total := (pm_sales.map (fun x => x.total)).sum
                 percentage := pythonRound ((pm_count : ℚ) * 100 /
                   ((max total_sales 1 : Nat) : ℚ)) : PmEntry }
        else none)
    let emp_keys := dedup (base.map (fun x => x.employee_name))
    let emp_aggs := emp_keys.map (fun k =>
      let grp := base.filter (fun x => x.employee_name == k)
      (k, grp.length, (grp.map (fun x => x.total)).sum))
    let emp_sorted := sortBy (fun a b => decide (b.2.2 ≤ a.2.2)) emp_aggs
    let sales_by_employee := emp_sorted.map (fun a =>
      { name := match a.1 with
          | some n => if n = "" then "Unknown" else n
          | none => "Unknown"
        count := a.2.1
        revenue := a.2.2 : EmpAgg })
    let hourly_distribution := (List.range 24).map (fun h =>
      let grp := base.filter (fun x => x.created_at.hour == h)
      { hour := pad2 h ++ ":00"
        count := grp.length
        revenue := (grp.map (fun x => x.total)).sum : HourAgg })
    { period := period
      start_date := dr.1
      end_date := dr.2
      total_revenue := total_revenue
      total_sales := total_sales
      total_tax := total_tax
      revenue_by_day := revenue_by_day
      payment_breakdown := payment_breakdown
      sales_by_employee := sales_by_employee
      hourly_distribution := hourly_distribution }

/-! ## Pipeline report aggregator (`views.pipeline_report`) -/

structure PipelineStageAgg where
  name : String
  color : String
  count : Nat
  value : ℚ
  probability : Nat
deriving DecidableEq, Repr

structure SourceCount where
  source : String
  count : Nat
deriving DecidableEq, Repr

structure ReasonCount where
  reason : String
  count : Nat
deriving DecidableEq, Repr

structure MonthlyWonLost where
  month : String
  won : Nat
  lost : Nat
deriving DecidableEq, Repr

structure PipelineLeadsSec where
  has_leads_module : Bool
  pipeline_value : ℚ
  open_leads : Nat
  conversion_rate : ℤ
  avg_close_days : ℤ
  pipeline_by_stage : List PipelineStageAgg
  leads_by_source : List SourceCount
  loss_reasons : List ReasonCount
  won_lost_monthly : List MonthlyWonLost
deriving DecidableEq, Repr

/-- `timedelta(a - b).days` for timestamps (floor division, Python
timedelta normalization). -/
def timedelta_days (a b : DateTime) : ℤ :=
  Int.fdiv ((a.key : ℤ) - (b.key : ℤ)) 1440

def lead_close_days (l : Lead) : ℤ :=
  match l.won_date with
  | some w => timedelta_days w l.created_at
  | none => 0

def lead_won_in (s e : Date) (l : Lead) : Bool :=
  l.status == "won" &&
    (match l.won_date with
     | some w => dateInRange w.date s e
     | none => false)

def lead_lost_in (s e : Date) (l : Lead) : Bool :=
  l.status == "lost" &&
    (match l.lost_date with
     | some w => dateInRange w.date s e
     | none => false)

/-- The default-pipeline selection duplicated in `pipeline_report` and
`api_chart_data`: the hub's pipeline marked default, else its first
pipeline. -/
def default_pipeline_of (hub : Nat) (db : LeadsDB) : Option Pipeline :=
  match (db.pipelines.filter (fun p =>
    p.hub_id == hub && !p.is_deleted && p.is_default)).head? with
  | some p => some p
  | none => (db.pipelines.filter (fun p =>
      p.hub_id == hub && !p.is_deleted)).head?

/-- Leads section of `pipeline_report` (lines 684–830).  `today` is the
evaluation date; the 6-month trailing series starts at `today - 180 days`. -/
def pipeline_leads_section (hub : Nat) (s e today : Date) :
    Option LeadsDB → PipelineLeadsSec
  | none => ⟨false, 0, 0, 0, 0, [], [], [], []⟩
  | some db =>
    let all_leads := db.leads.filter (fun l => l.hub_id == hub && !l.is_deleted)
    let open_qs := all_leads.filter (fun l => l.status == "open")
    let open_leads := open_qs.length
    let pipeline_value := (open_qs.map (fun l => l.value)).sum
    let won_in_period := all_leads.filter (lead_won_in s e)
    let lost_in_period := all_leads.filter (lead_lost_in s e)
    let total_closed := won_in_period.length + lost_in_period.length
    let conversion_rate :=
      if 0 < total_closed then
        pythonRound ((won_in_period.length : ℚ) / (total_closed : ℚ) * 100)
      else 0
    let won_leads := all_leads.filter (fun l =>
      l.status == "won" && l.won_date.isSome)
    let first100 := won_leads.take 100
    let total_days := (first100.map lead_close_days).sum
    let avg_close_days :=
      if 0 < first100.length then
        pythonRound ((total_days : ℚ) / (first100.length : ℚ))
      else 0
    let pipeline_by_stage : List PipelineStageAgg :=
      match default_pipeline_of hub db with
      | none => []
      | some pl =>
        let stages := sortBy (fun (a b : PipelineStage) => decide (a.order ≤ b.order))
          (db.stages.filter (fun st =>
            st.hub_id == hub && !st.is_deleted && st.pipeline_id == pl.id))
        stages.map (fun st =>
          let stage_leads := open_qs.filter (fun l => l.stage_id == st.id)
          { name := st.name
            color := st.color
            count := stage_leads.length
            value := (stage_leads.map (fun l => l.value)).sum
            probability := st.probability : PipelineStageAgg })
    let src_keys := dedup (open_qs.map (fun l => l.source))
    let src_aggs := src_keys.map (fun k =>
      (k, (open_qs.filter (fun l => l.source == k)).length))
    let leads_by_source := (sortBy (fun a b => decide (b.2 ≤ a.2)) src_aggs).map
      (fun a => { source := lookupChoice db.source_choices a.1
                  count := a.2 : SourceCount })
    let lost_qs := all_leads.filter (fun l =>
      l.status == "lost" && l.loss_reason_name.isSome &&
        (match l.lost_date with
         | some w => dateInRange w.date s e
         | none => false))
    let reason_keys := dedup (lost_qs.map (fun l => l.loss_reason_name))
    let reason_aggs := reason_keys.map (fun k =>
      (k, (lost_qs.filter (fun l => l.loss_reason_name == k)).length))
    let loss_reasons := (sortBy (fun a b => decide (b.2 ≤ a.2)) reason_aggs).map
      (fun a => { reason := a.1.getD ""
                  count := a.2 : ReasonCount })
    let six_months_ago := subDays today 180
    let won_m := all_leads.filter (fun l =>
      l.status == "won" &&
        (match l.won_date with
         | some w => dateLeB six_months_ago w.date
         | none => false))
    let lost_m := all_leads.filter (fun l =>
      l.status == "lost" &&
        (match l.lost_date with
         | some w => dateLeB six_months_ago w.date
         | none => false))
    let won_keys := won_m.filterMap (fun l =>
      l.won_date.map (fun w => (w.date.year, w.date.month)))
    let lost_keys := lost_m.filterMap (fun l =>
      l.lost_date.map (fun w => (w.date.year, w.date.month)))
    let month_keys := sortBy
      (fun (a b : Nat × Nat) => decide (a.1 < b.1 ∨ (a.1 = b.1 ∧ a.2 ≤ b.2)))
      (dedup (won_keys ++ lost_keys))
    let won_lost_monthly := month_keys.map (fun k =>
      { month := monthAbbrev k.2 ++ " " ++ toString k.1
        won := (won_m.filter (fun l =>
          match l.won_date with
          | some w => (w.date.year, w.date.month) == k
          | none => false)).length
        lost := (lost_m.filter (fun l =>
          match l.lost_date with
          | some w => (w.date.year, w.date.month) == k
          | none => false)).length : MonthlyWonLost })
    { has_leads_module := true
      pipeline_value := pipeline_value
      open_leads := open_leads
      conversion_rate := conversion_rate
      avg_close_days := avg_close_days
      pipeline_by_stage := pipeline_by_stage
      leads_by_source := leads_by_source
      loss_reasons := loss_reasons
      won_lost_monthly := won_lost_monthly }

structure PipelineQuotesSec where
  has_quotes_module : Bool
  quotes_total : Nat
  quotes_value : ℚ
  quotes_accepted : Nat
  quotes_acceptance_rate : ℤ
deriving DecidableEq, Repr

/-- Quotes section of `pipeline_report` (lines 832–856). -/
def pipeline_quotes_section (hub : Nat) (s e : Date) :
    Option QuotesDB → PipelineQuotesSec
  | none => ⟨false, 0, 0, 0, 0⟩
  | some db =>
    let qs := db.quotes.filter (fun q =>
      q.hub_id == hub && !q.is_deleted && dateInRange q.created_at.date s e)
    let accepted := (qs.filter (fun q => q.status == "accepted")).length
    let decided := (qs.filter (fun q =>
      ["accepted", "rejected"].contains q.status)).length
    { has_quotes_module := true
      quotes_total := qs.length
      quotes_value := (qs.map (fun q => q.total)).sum
      quotes_accepted := accepted
      quotes_acceptance_rate :=
        if 0 < decided then pythonRound ((accepted : ℚ) / (decided : ℚ) * 100)
        else 0 }

structure PipelineResult where
  period : String
  start_date : Date
  end_date : Date
  has_leads_module : Bool
  has_quotes_module : Bool
  pipeline_value : ℚ
  open_leads : Nat
  conversion_rate : ℤ
  avg_close_days : ℤ
  pipeline_by_stage : List PipelineStageAgg
  leads_by_source : List SourceCount
  loss_reasons : List ReasonCount
  won_lost_monthly : List MonthlyWonLost
  quotes_total : Nat
  quotes_value : ℚ
  quotes_accepted : Nat
  quotes_acceptance_rate : ℤ
deriving DecidableEq, Repr

/-- The pipeline report view's returned context (`views.pipeline_report`). -/
def pipeline_report (hub : Nat) (stg : AnalyticsSettings)
    (period_param : Option String) (today : Date)
    (leadsDB : Option LeadsDB) (quotesDB : Option QuotesDB) : PipelineResult :=
  let period := period_param.getD stg.default_period
  let dr := get_date_range period today
  let ls := pipeline_leads_section hub dr.1 dr.2 today leadsDB
  let qsec := pipeline_quotes_section hub dr.1 dr.2 quotesDB
  { period := period
    start_date := dr.1
    end_date := dr.2
    has_leads_module := ls.has_leads_module
    has_quotes_module := qsec.has_quotes_module
    pipeline_value := ls.pipeline_value
    open_leads := ls.open_leads
    conversion_rate := ls.conversion_rate
    avg_close_days := ls.avg_close_days
    pipeline_by_stage := ls.pipeline_by_stage
    leads_by_source := ls.leads_by_source
    loss_reasons := ls.loss_reasons
    won_lost_monthly := ls.won_lost_monthly
    quotes_total := qsec.quotes_total
    quotes_value := qsec.quotes_value
    quotes_accepted := qsec.quotes_accepted
    quotes_acceptance_rate := qsec.quotes_acceptance_rate }

/-! ## Chart series builder (`views.api_chart_data`) -/

structure ChartDataResponse where
  labels : List String
  values : List ℚ
  chart_type : String
  period : String
deriving DecidableEq, Repr

/-- The chart-data JSON endpoint.  `type` defaults to "revenue", `period` to
"month"; each branch fills `labels` and `values` in lockstep from one group
list; an unrecognized type leaves both empty; the response always carries
the chart type and period back. -/
def api_chart_data (hub : Nat) (type_param period_param : Option String)
    (today : Date) (salesDB : Option SalesDB) (customersDB : Option CustomersDB)
    (leadsDB : Option LeadsDB) (feedbackDB : Option FeedbackDB) :
    ChartDataResponse :=
  let chart_type := type_param.getD "revenue"
  let period := period_param.getD "month"
  let dr := get_date_range period today
  let lv : List String × List ℚ :=
    if chart_type = "revenue" then
      match salesDB with
      | none => ([], [])
      | some db =>
        let base := db.sales.filter (sale_completed_in_window hub dr.1 dr.2)
        let days := sortBy dateLeB (dedup (base.map (fun x => x.created_at.date)))
        (days.map (fun d => pad2 d.day ++ "/" ++ pad2 d.month),
         days.map (fun d =>
           ((base.filter (fun x => x.created_at.date == d)).map
             (fun x => x.total)).sum))
    else if chart_type = "sales_count" then
      match salesDB with
      | none => ([], [])
      | some db =>
        let base := db.sales.filter (sale_completed_in_window hub dr.1 dr.2)
        let days := sortBy dateLeB (dedup (base.map (fun x => x.created_at.date)))
        (days.map (fun d => pad2 d.day ++ "/" ++ pad2 d.month),
         days.map (fun d =>
           ((base.filter (fun x => x.created_at.date == d)).length : ℚ)))
    else if chart_type = "customers" then
      match customersDB with
      | none => ([], [])
      | some db =>
        let base := db.customers.filter (fun c =>
          c.hub_id == hub && !c.is_deleted &&
            dateInRange c.created_at.date dr.1 dr.2)
        let days := sortBy dateLeB (dedup (base.map (fun c => c.created_at.date)))
        (days.map (fun d => pad2 d.day ++ "/" ++ pad2 d.month),
         days.map (fun d =>
           ((base.filter (fun c => c.created_at.date == d)).length : ℚ)))
    else if chart_type = "products" then
      match salesDB with
      | none => ([], [])
      | some db =>
        let tops := top_products_of db.items hub dr.1 dr.2 10
        (tops.map (fun t =>
           match t.product_name with
           | some n => if n = "" then "Unknown" else n
           | none => "Unknown"),
         tops.map (fun t => t.total_revenue))
    else if chart_type = "pipeline_by_stage" then
      match leadsDB with
      | none => ([], [])
      | some db =>
        match default_pipeline_of hub db with
        | none => ([], [])
        | some pl =>
          let stages := sortBy
            (fun (a b : PipelineStage) => decide (a.order ≤ b.order))
            (db.stages.filter (fun st =>
              st.hub_id == hub && !st.is_deleted && st.pipeline_id == pl.id))
          (stages.map (fun st => st.name),
           stages.map (fun st =>
             ((db.leads.filter (fun l =>
               l.hub_id == hub && !l.is_deleted && l.status == "open" &&
                 l.stage_id == st.id)).map (fun l => l.value)).sum))
    else if chart_type = "lifecycle" then
      match customersDB with
      | none => ([], [])
      | some db =>
        let customers_qs := db.customers.filter (fun c =>
          c.hub_id == hub && !c.is_deleted)
        let kept := db.lifecycle_stage_choices.filter (fun c =>
          decide (0 < (customers_qs.filter
            (fun x => x.lifecycle_stage == c.1)).length))
        (kept.map (fun c => c.2),
         kept.map (fun c =>
           ((customers_qs.filter (fun x => x.lifecycle_stage == c.1)).length : ℚ)))
    else if chart_type = "nps_trend" then
      match feedbackDB with
      | none => ([], [])
      | some db =>
        let six_months_ago := subDays today 180
        let qs := db.responses.filter (fun r =>
          nps_response_in hub r && dateLeB six_months_ago r.created_at.date)
        let keys := sortBy
          (fun (a b : Nat × Nat) => decide (a.1 < b.1 ∨ (a.1 = b.1 ∧ a.2 ≤ b.2)))
          (dedup (qs.map (fun r => (r.created_at.date.year, r.created_at.date.month))))
        (keys.map (fun k => monthAbbrev k.2 ++ " " ++ toString k.1),
         keys.map (fun k =>
           let month_qs := qs.filter (fun r =>
             r.created_at.date.year == k.1 && r.created_at.date.month == k.2)
           let promoters := (month_qs.filter (fun r => score_ge r 9)).length
           let detractors := (month_qs.filter (fun r => score_le r 6)).length
           let m_total := month_qs.length
           if 0 < m_total then
             ((pythonRound ((((promoters : ℤ) - (detractors : ℤ)) : ℚ) /
               (m_total : ℚ) * 100) : ℤ) : ℚ)
           else 0))
    else ([], [])
  { labels := lv.1
    values := lv.2
    chart_type := chart_type
    period := period }

/-! ## CSV serializer (`views.export_csv`) -/

inductive Cell where
  | str (s : String)
  | num (q : ℚ)
  | int (n : ℤ)
deriving DecidableEq, Repr

structure CsvResponse where
  content_type : String
  content_disposition : String
  rows : List (List Cell)
deriving DecidableEq, Repr

def sales_csv_header : List Cell :=
  [.str "Sale Number", .str "Date", .str "Employee", .str "Customer",
   .str "Payment Method", .str "Subtotal", .str "Tax", .str "Total",
   .str "Status"]

def products_csv_header : List Cell :=
  [.str "Product", .str "SKU", .str "Quantity Sold", .str "Revenue",
   .str "Stock", .str "Price", .str "Cost"]

def customers_csv_header : List Cell :=
  [.str "Name", .str "Email", .str "Phone", .str "Total Purchases",
   .str "Total Spent", .str "Last Purchase"]

/-- The CSV export endpoint.  The sales branch filters by hub, deletion flag
and window only — **no** status filter — newest first; the products branch
groups completed sale items by (name, sku), highest revenue first; the
customers branch lists all the hub's customers, highest spend first.  A
missing collaborator contributes no data rows; an unrecognized report type
produces no rows at all. -/
def export_csv (hub : Nat) (type_param period_param : Option String)
    (today : Date) (salesDB : Option SalesDB)
    (customersDB : Option CustomersDB) : CsvResponse :=
  let report_type := type_param.getD "sales"
  let period := period_param.getD "month"
  let dr := get_date_range period today
  let rows : List (List Cell) :=
    if report_type = "sales" then
      sales_csv_header ::
        (match salesDB with
         | none => []
         | some db =>
           let sales := sortBy
             (fun (a b : Sale) => decide (b.created_at.key ≤ a.created_at.key))
             (db.sales.filter (sale_in_export_window hub dr.1 dr.2))
           sales.map (fun x =>
             [Cell.str x.sale_number,
              Cell.str (dtFormat x.created_at),
              Cell.str (x.employee_name.getD ""),
              Cell.str x.customer_name,
              Cell.str x.payment_method_name,
              Cell.num x.subtotal,
              Cell.num x.tax_amount,
              Cell.num x.total,
              Cell.str x.status_display]))
    else if report_type = "products" then
      products_csv_header ::
        (match salesDB with
         | none => []
         | some db =>
           let qs := db.items.filter (item_completed_in_window hub dr.1 dr.2)
           let keys := dedup (qs.map (fun i => (i.product_name, i.product_sku)))
           let aggs := keys.map (fun k =>
             let grp := qs.filter (fun i => (i.product_name, i.product_sku) == k)
             (k, (grp.map (fun i => i.quantity)).sum,
              (grp.map (fun i => i.line_total)).sum))
           let sorted := sortBy (fun a b => decide (b.2.2 ≤ a.2.2)) aggs
           sorted.map (fun a =>
             [Cell.str (a.1.1.getD ""),
              Cell.str a.1.2,
              Cell.num a.2.1,
              Cell.num a.2.2,
              Cell.str "", Cell.str "", Cell.str ""]))
    else if report_type = "customers" then
      customers_csv_header ::
        (match customersDB with
         | none => []
         | some db =>
           let customers := sortBy
             (fun (a b : Customer) => decide (b.total_spent ≤ a.total_spent))
             (db.customers.filter (fun c => c.hub_id == hub && !c.is_deleted))
           customers.map (fun c =>
             [Cell.str c.name,
              Cell.str c.email,
              Cell.str c.phone,
              Cell.int (c.total_purchases : ℤ),
              Cell.num c.total_spent,
              Cell.str (match c.last_purchase_date with
                | some t => dateIso t.date
                | none => "")]))
    else []
  { content_type := "text/csv"
    content_disposition := "attachment; filename=\"analytics_" ++ report_type ++
      "_" ++ dateIso dr.1 ++ "_" ++ dateIso dr.2 ++ ".csv\""
    rows := rows }

/-! ## Settings surfaces (`views.settings_save`, `ai_tools`) -/

def analytics_settings_period_choices : List String :=
  ["today", "week", "month", "quarter", "year"]

/-- Field-level validation performed by `AnalyticsSettingsForm` / the model
validators: `default_period` must be a declared choice, `default_currency`
is a required `CharField(max_length=3)`, and `fiscal_year_start_month`
carries `MinValueValidator(1), MaxValueValidator(12)`.  Returns the names of
the fields in error (the keys of `form.errors`). -/
def AnalyticsSettingsForm_errors (data : AnalyticsSettings) : List String :=
  (if analytics_settings_period_choices.contains data.default_period then []
   else ["default_period"]) ++
  (if data.default_currency ≠ "" ∧ data.default_currency.length ≤ 3 then []
   else ["default_currency"]) ++
  (if 1 ≤ data.fiscal_year_start_month ∧ data.fiscal_year_start_month ≤ 12
   then [] else ["fiscal_year_start_month"])

structure SaveResponse where
  success : Bool
  errors : List String
  status : Nat
deriving DecidableEq, Repr

/-- `views.settings_save`: validates the posted data with the form; on
success saves and answers `{success: true}`; on failure answers
`{success: false, errors}` with HTTP 400 and leaves the stored row
untouched.  Returns (response, stored row after the request). -/
def settings_save (stored post : AnalyticsSettings) :
    SaveResponse × AnalyticsSettings :=
  let errs := AnalyticsSettingsForm_errors post
  if errs.isEmpty then ({ success := true, errors := [], status := 200 }, post)
  else ({ success := false, errors := errs, status := 400 }, stored)

structure ToolArgs where
  default_period : Option String
  fiscal_year_start_month : Option Int
  show_profit : Option Bool
  show_tax_breakdown : Option Bool
  compare_previous_period : Option Bool
deriving DecidableEq, Repr

structure ToolResult where
  updated_fields : List String
  success : Bool
deriving DecidableEq, Repr

/-- `ai_tools.UpdateAnalyticsSettings.execute`: copies each supplied argument
onto the settings row and calls `save()`.  Django `Model.save` does not run
field validators, so this surface performs no range checking.  Returns
(tool result, stored row after the call). -/
def UpdateAnalyticsSettings_execute (stored : AnalyticsSettings)
    (args : ToolArgs) : ToolResult × AnalyticsSettings :=
  let s1 := match args.default_period with
    | some v => { stored with default_period := v }
    | none => stored
  let u1 : List String := match args.default_period with
    | some _ => ["default_period"]
    | none => []
  let s2 := match args.fiscal_year_start_month with
    | some v => { s1 with fiscal_year_start_month := v }
    | none => s1
  let u2 : List String := match args.fiscal_year_start_month with
    | some _ => ["fiscal_year_start_month"]
    | none => []
  let s3 := match args.show_profit with
    | some v => { s2 with show_profit := v }
    | none => s2
  let u3 : List String := match args.show_profit with
    | some _ => ["show_profit"]
    | none => []
  let s4 := match args.show_tax_breakdown with
    | some v => { s3 with show_tax_breakdown := v }
    | none => s3
  let u4 : List String := match args.show_tax_breakdown with
    | some _ => ["show_tax_breakdown"]
    | none => []
  let s5 := match args.compare_previous_period with
    | some v => { s4 with compare_previous_period := v }
    | none => s4
  let u5 : List String := match args.compare_previous_period with
    | some _ => ["compare_previous_period"]
    | none => []
  ({ updated_fields := u1 ++ u2 ++ u3 ++ u4 ++ u5, success := true }, s5)

/-! ## Sample data used by concrete witnesses -/

def empty_sales_db : SalesDB := ⟨[], [], []⟩

def mk_sale (d : Date) (amount : ℚ) (st : String) : Sale :=
  { hub_id := 1
    is_deleted := false
    status := st
    created_at := ⟨d, 600⟩
    sale_number := "S"
    employee_name := none
    customer_name := "C"
    payment_method_id := none
    payment_method_name := "Cash"
    subtotal := amount
    tax_amount := 0
    total := amount
    status_display := st }

def mk_item (d : Date) (pname : String) (qty amount : ℚ) (st : String) : SaleItem :=
  { hub_id := 1
    is_deleted := false
    sale_status := st
    sale_created_at := ⟨d, 600⟩
    product_name := some pname
    product_sku := "SKU"
    quantity := qty
    line_total := amount }

def mk_response (v : Int) : FeedbackResponse :=
  { hub_id := 1
    is_deleted := false
    form_type := "nps_10"
    score := some v
    created_at := ⟨⟨2, 5, 10⟩, 0⟩ }

/-! ## Comparison calculator lemmas -/

theorem percent_change_of_false (c p : ℚ) : percent_change_of false c p = none := by
  unfold percent_change_of
  rw [if_neg]
  rintro ⟨h, _⟩
  exact Bool.false_ne_true h

theorem percent_change_of_pos (c p : ℚ) (h : 0 < p) :
    percent_change_of true c p = some ((c - p) / p * 100) := by
  unfold percent_change_of
  rw [if_pos ⟨rfl, h⟩]

theorem percent_change_of_nonpos (b : Bool) (c p : ℚ) (h : p ≤ 0) :
    percent_change_of b c p = none := by
  unfold percent_change_of
  rw [if_neg]
  rintro ⟨_, hp⟩
  exact absurd hp (not_lt.mpr h)

/-- C3: the dashboard's period-over-period change is
`(current - previous) / previous * 100` when the previous baseline is
positive and comparison is enabled, and `None` otherwise — for any current
value, a non-positive previous baseline or a disabled
`compare_previous_period` setting yields `None` (the computation is total:
no division by zero, no infinity), for both `revenue_change` and
`sales_change`. -/
theorem claim_C3_percent_change (hub : Nat) (stg : AnalyticsSettings)
    (pp : Option String) (today : Date) (sdb : Option SalesDB)
    (cdb : Option CustomersDB) (idb : Option InventoryDB) (ldb : Option LeadsDB)
    (tdb : Option SupportDB) (fdb : Option FeedbackDB) (loy seg : Option Unit)
    (r : DashboardResult)
    (hr : r = dashboard hub stg pp today sdb cdb idb ldb tdb fdb loy seg) :
    (stg.compare_previous_period = false →
      r.revenue_change = none ∧ r.sales_change = none) ∧
    (stg.compare_previous_period = true → 0 < r.prev_revenue →
      r.revenue_change =
        some ((r.total_revenue - r.prev_revenue) / r.prev_revenue * 100)) ∧
    (r.prev_revenue ≤ 0 → r.revenue_change = none) ∧
    (stg.compare_previous_period = true → 0 < r.prev_sales →
      r.sales_change = some (((r.total_sales : ℚ) - (r.prev_sales : ℚ)) /
        (r.prev_sales : ℚ) * 100)) ∧
    (r.prev_sales = 0 → r.sales_change = none) := by
  subst hr
  have hrc : (dashboard hub stg pp today sdb cdb idb ldb tdb fdb loy seg).revenue_change =
      percent_change_of stg.compare_previous_period
        (dashboard hub stg pp today sdb cdb idb ldb tdb fdb loy seg).total_revenue
        (dashboard hub stg pp today sdb cdb idb ldb tdb fdb loy seg).prev_revenue := rfl
  have hsc : (dashboard hub stg pp today sdb cdb idb ldb tdb fdb loy seg).sales_change =
      percent_change_of stg.compare_previous_period
        ((dashboard hub stg pp today sdb cdb idb ldb tdb fdb loy seg).total_sales : ℚ)
        ((dashboard hub stg pp today sdb cdb idb ldb tdb fdb loy seg).prev_sales : ℚ) := rfl
  refine ⟨?_, ?_, ?_, ?_, ?_⟩
  · intro h
    rw [hrc, hsc, h]
    exact ⟨percent_change_of_false _ _, percent_change_of_false _ _⟩
  · intro hc hp
    rw [hrc, hc]
    exact percent_change_of_pos _ _ hp
  · intro hp
    rw [hrc]
    exact percent_change_of_nonpos _ _ _ hp
  · intro hc hp
    rw [hsc, hc]
    exact percent_change_of_pos _ _ (by exact_mod_cast hp)
  · intro hp
    rw [hsc]
    refine percent_change_of_nonpos _ _ _ ?_
    rw [hp]
    norm_num

def c3_sales_db : SalesDB :=
  ⟨[mk_sale ⟨2, 5, 10⟩ 100 "completed", mk_sale ⟨2, 4, 20⟩ 50 "completed"],
   [], []⟩

theorem claim_C3_percent_change_witness :
    (dashboard 1 default_settings (some "month") ⟨2, 5, 15⟩ (some c3_sales_db)
        none none none none none none none).revenue_change = some 100 ∧
    (dashboard 1 default_settings (some "month") ⟨2, 5, 15⟩ (some empty_sales_db)
        none none none none none none none).revenue_change = none := by
  constructor
  · have h := claim_C3_percent_change 1 default_settings (some "month")
      ⟨2, 5, 15⟩ (some c3_sales_db) none none none none none none none _ rfl
    have hb1 : (dashboard 1 default_settings (some "month") ⟨2, 5, 15⟩
        (some c3_sales_db) none none none none none none none).prev_revenue =
        ((c3_sales_db.sales.filter
          (sale_completed_in_window 1 ⟨2, 4, 16⟩ ⟨2, 4, 30⟩)).map
            (fun x => x.total)).sum := rfl
    have hb2 : (dashboard 1 default_settings (some "month") ⟨2, 5, 15⟩
        (some c3_sales_db) none none none none none none none).total_revenue =
        ((c3_sales_db.sales.filter
          (sale_completed_in_window 1 ⟨2, 5, 1⟩ ⟨2, 5, 15⟩)).map
            (fun x => x.total)).sum := rfl
    have hf1 : c3_sales_db.sales.filter
        (sale_completed_in_window 1 ⟨2, 4, 16⟩ ⟨2, 4, 30⟩) =
        [mk_sale ⟨2, 4, 20⟩ 50 "completed"] := by decide
    have hf2 : c3_sales_db.sales.filter
        (sale_completed_in_window 1 ⟨2, 5, 1⟩ ⟨2, 5, 15⟩) =
        [mk_sale ⟨2, 5, 10⟩ 100 "completed"] := by decide
    have hpr : (dashboard 1 default_settings (some "month") ⟨2, 5, 15⟩
        (some c3_sales_db) none none none none none none none).prev_revenue = 50 := by
      rw [hb1, hf1]
      norm_num [mk_sale]
    have htr : (dashboard 1 default_settings (some "month") ⟨2, 5, 15⟩
        (some c3_sales_db) none none none none none none none).total_revenue = 100 := by
      rw [hb2, hf2]
      norm_num [mk_sale]
    rw [h.2.1 rfl (by rw [hpr]; norm_num), hpr, htr]
    norm_num
  · have h := claim_C3_percent_change 1 default_settings (some "month")
      ⟨2, 5, 15⟩ (some empty_sales_db) none none none none none none none _ rfl
    refine h.2.2.1 ?_
    have hpr : (dashboard 1 default_settings (some "month") ⟨2, 5, 15⟩
        (some empty_sales_db) none none none none none none none).prev_revenue = 0 := rfl
    exact le_of_eq hpr

/-! ## Average ticket -/

theorem dash_sales_avg_ticket (hub : Nat) (s e ps pe : Date) (compare : Bool)
    (odb : Option SalesDB) :
    (dash_sales hub s e ps pe compare odb).avg_ticket =
      (dash_sales hub s e ps pe compare odb).total_revenue /
        ((max (dash_sales hub s e ps pe compare odb).total_sales 1 : Nat) : ℚ) := by
  cases odb with
  | none =>
    show (0 : ℚ) = 0 / ((max 0 1 : Nat) : ℚ)
    norm_num
  | some db => rfl

theorem dash_sales_zero (hub : Nat) (s e ps pe : Date) (compare : Bool)
    (odb : Option SalesDB)
    (h : (dash_sales hub s e ps pe compare odb).total_sales = 0) :
    (dash_sales hub s e ps pe compare odb).avg_ticket = 0 := by
  cases odb with
  | none => rfl
  | some db =>
    have hb : db.sales.filter (sale_completed_in_window hub s e) = [] :=
      List.length_eq_zero.mp h
    show ((db.sales.filter (sale_completed_in_window hub s e)).map
        (fun x => x.total)).sum /
      ((max (db.sales.filter (sale_completed_in_window hub s e)).length 1 : Nat) : ℚ) = 0
    rw [hb]
    norm_num

/-- C8: the dashboard's average ticket is total revenue divided by
`max(sale count, 1)`; in particular a window with zero completed sales has
average ticket exactly 0 — no error, no `None`. -/
theorem claim_C8_avg_ticket (hub : Nat) (stg : AnalyticsSettings)
    (pp : Option String) (today : Date) (sdb : Option SalesDB)
    (cdb : Option CustomersDB) (idb : Option InventoryDB) (ldb : Option LeadsDB)
    (tdb : Option SupportDB) (fdb : Option FeedbackDB) (loy seg : Option Unit)
    (r : DashboardResult)
    (hr : r = dashboard hub stg pp today sdb cdb idb ldb tdb fdb loy seg) :
    r.avg_ticket = r.total_revenue / ((max r.total_sales 1 : Nat) : ℚ) ∧
    (r.total_sales = 0 → r.avg_ticket = 0) := by
  subst hr
  exact ⟨dash_sales_avg_ticket hub _ _ _ _ _ sdb,
    fun h => dash_sales_zero hub _ _ _ _ _ sdb h⟩

theorem claim_C8_avg_ticket_witness :
    (dashboard 1 default_settings (some "month") ⟨2, 5, 15⟩
        (some empty_sales_db) none none none none none none none).avg_ticket = 0 := by
  have h := claim_C8_avg_ticket 1 default_settings (some "month") ⟨2, 5, 15⟩
    (some empty_sales_db) none none none none none none none _ rfl
  exact h.2 (by decide)

/-! ## NPS claims -/

theorem pythonRound_intCast (n : ℤ) : pythonRound ((n : ℤ) : ℚ) = n := by
  have hf : ratFloor ((n : ℤ) : ℚ) = n := by
    unfold ratFloor
    rw [Rat.num_intCast, Rat.den_intCast]
    rw [show ((1 : ℕ) : ℤ) = 1 from rfl]
    rw [Int.fdiv_eq_ediv _ (by omega)]
    exact Int.ediv_one n
  unfold pythonRound
  rw [hf, sub_self]
  rw [if_pos (by norm_num : (0 : ℚ) < 1 / 2)]

theorem pythonRound_eq_intCast (q : ℚ) (n : ℤ) (h : q = (n : ℚ)) :
    pythonRound q = n := by
  rw [h]
  exact pythonRound_intCast n

/-- C5: the loyalty report's period NPS is
`round((score ≥ 9 count - score ≤ 6 count) / total * 100)` over the window's
responses, and `None` when the window has zero responses. -/
theorem claim_C5_nps (hub : Nat) (s e : Date) (db : FeedbackDB)
    (qs : List FeedbackResponse)
    (hqs : qs = db.responses.filter
      (fun r => nps_response_in hub r && dateInRange r.created_at.date s e)) :
    (qs = [] → loyalty_report_avg_nps hub s e (some db) = none) ∧
    (qs ≠ [] → loyalty_report_avg_nps hub s e (some db) =
      some (pythonRound (((((qs.filter (fun r => score_ge r 9)).length : ℤ) -
        ((qs.filter (fun r => score_le r 6)).length : ℤ)) : ℚ) /
        (qs.length : ℚ) * 100))) := by
  have hrw : loyalty_report_avg_nps hub s e (some db) = nps_formula qs := by
    rw [hqs]
    rfl
  constructor
  · intro h
    rw [hrw, h]
    rfl
  · intro h
    rw [hrw]
    cases qs with
    | nil => exact absurd rfl h
    | cons a t =>
      unfold nps_formula
      rw [if_neg (by simp)]
      dsimp only
      rw [if_pos (by simp : 0 < (a :: t).length)]

def c5_feedback_db : FeedbackDB :=
  ⟨[mk_response 9, mk_response 9, mk_response 9, mk_response 10, mk_response 10,
    mk_response 10, mk_response 3, mk_response 5, mk_response 7, mk_response 8]⟩

theorem claim_C5_nps_witness :
    loyalty_report_avg_nps 1 ⟨2, 5, 1⟩ ⟨2, 5, 15⟩ (some c5_feedback_db) =
      some 40 := by
  have h := claim_C5_nps 1 ⟨2, 5, 1⟩ ⟨2, 5, 15⟩ c5_feedback_db
    (c5_feedback_db.responses.filter
      (fun r => nps_response_in 1 r &&
        dateInRange r.created_at.date ⟨2, 5, 1⟩ ⟨2, 5, 15⟩)) rfl
  rw [h.2 (by decide)]
  have h9 : ((c5_feedback_db.responses.filter
      (fun r => nps_response_in 1 r &&
        dateInRange r.created_at.date ⟨2, 5, 1⟩ ⟨2, 5, 15⟩)).filter
      (fun r => score_ge r 9)).length = 6 := by decide
  have h6 : ((c5_feedback_db.responses.filter
      (fun r => nps_response_in 1 r &&
        dateInRange r.created_at.date ⟨2, 5, 1⟩ ⟨2, 5, 15⟩)).filter
      (fun r => score_le r 6)).length = 2 := by decide
  have hlen : (c5_feedback_db.responses.filter
      (fun r => nps_response_in 1 r &&
        dateInRange r.created_at.date ⟨2, 5, 1⟩ ⟨2, 5, 15⟩)).length = 10 := by
    decide
  rw [h9, h6, hlen]
  refine congrArg some (pythonRound_eq_intCast _ 40 ?_)
  push_cast
  norm_num

/-! ## C7: settings validation -/

def c7_args : ToolArgs := ⟨none, some 13, none, none, none⟩

/-- C7: posting `fiscal_year_start_month = 13` through the form-backed
`settings_save` surface is rejected with a field-level error and the stored
row is unchanged; but the narrow partial-field AI-tool surface
(`UpdateAnalyticsSettings.execute`) performs no validation: it persists 13
and reports success, contradicting the claim (and the model's own
`MinValueValidator(1), MaxValueValidator(12)` declaration). -/
theorem claim_C7_settings_validation_evidence :
    (settings_save default_settings
      { default_settings with fiscal_year_start_month := 13 }).1.success = false ∧
    "fiscal_year_start_month" ∈ (settings_save default_settings
      { default_settings with fiscal_year_start_month := 13 }).1.errors ∧
    (settings_save default_settings
      { default_settings with fiscal_year_start_month := 13 }).2 =
      default_settings ∧
    (UpdateAnalyticsSettings_execute default_settings c7_args).1.success = true ∧
    (UpdateAnalyticsSettings_execute default_settings c7_args).1.updated_fields =
      ["fiscal_year_start_month"] ∧
    (UpdateAnalyticsSettings_execute default_settings
      c7_args).2.fiscal_year_start_month = 13 := by
  refine ⟨rfl, ?_, rfl, rfl, rfl, rfl⟩
  decide

/-! ## C4: optional collaborators -/

theorem dash_sales_empty (hub : Nat) (s e ps pe : Date) (compare : Bool) :
    dash_sales hub s e ps pe compare (some empty_sales_db) =
      dash_sales hub s e ps pe compare none := by
  have hmk : dash_sales hub s e ps pe compare (some empty_sales_db) =
      ⟨0, 0, 0 / ((max 0 1 : Nat) : ℚ), [], 0, 0⟩ := by
    cases compare <;> rfl
  rw [hmk]
  have hz : (0 : ℚ) / ((max 0 1 : Nat) : ℚ) = 0 := by norm_num
  rw [hz]
  rfl

/-- C4 counterexample: in the dashboard, a **present but empty** sales
collaborator produces the very same output as an **absent** one — there is
no `has_sales_module` flag (nor customers/inventory flags), so absence is
not distinguishable from zero rows, contradicting the claim for those
domains. -/
theorem claim_C4_counterexample :
    dashboard 1 default_settings (some "month") ⟨2, 5, 15⟩ (some empty_sales_db)
        none none none none none none none =
      dashboard 1 default_settings (some "month") ⟨2, 5, 15⟩ none
        none none none none none none none := by
  simp only [dashboard]
  rw [dash_sales_empty]

/-- C4 (amended): for the domains that do carry availability flags — leads,
support, feedback, loyalty and segments in the dashboard; leads and quotes
in the pipeline report — absence never fails the computation: the domain's
metrics come out as neutral defaults (zero counts, zero amounts, empty
lists, `None` NPS) with the flag `false`, and the flag is `true` whenever
the collaborator is present, so for these domains absence is distinguishable
from present-but-empty.  (The dashboard's sales, customers and inventory
domains carry no flag; see the counterexample.) -/
theorem claim_C4_amended_flags (hub : Nat) (stg : AnalyticsSettings)
    (pp : Option String) (today : Date) (sdb : Option SalesDB)
    (cdb : Option CustomersDB) (idb : Option InventoryDB) (ldb : Option LeadsDB)
    (tdb : Option SupportDB) (fdb : Option FeedbackDB) (loy seg : Option Unit)
    (qdb : Option QuotesDB) :
    ((dashboard hub stg pp today sdb cdb idb none tdb fdb loy seg).has_leads_module = false ∧
     (dashboard hub stg pp today sdb cdb idb none tdb fdb loy seg).pipeline_value = 0 ∧
     (dashboard hub stg pp today sdb cdb idb none tdb fdb loy seg).open_leads = 0) ∧
    (∀ db : LeadsDB,
      (dashboard hub stg pp today sdb cdb idb (some db) tdb fdb loy seg).has_leads_module = true) ∧
    ((dashboard hub stg pp today sdb cdb idb ldb none fdb loy seg).has_support_module = false ∧
     (dashboard hub stg pp today sdb cdb idb ldb none fdb loy seg).open_tickets = 0) ∧
    (∀ db : SupportDB,
      (dashboard hub stg pp today sdb cdb idb ldb (some db) fdb loy seg).has_support_module = true) ∧
    ((dashboard hub stg pp today sdb cdb idb ldb tdb none loy seg).has_feedback_module = false ∧
     (dashboard hub stg pp today sdb cdb idb ldb tdb none loy seg).avg_nps = none) ∧
    (∀ db : FeedbackDB,
      (dashboard hub stg pp today sdb cdb idb ldb tdb (some db) loy seg).has_feedback_module = true) ∧
    ((dashboard hub stg pp today sdb cdb idb ldb tdb fdb none seg).has_loyalty_module = false) ∧
    (∀ u : Unit,
      (dashboard hub stg pp today sdb cdb idb ldb tdb fdb (some u) seg).has_loyalty_module = true) ∧
    ((dashboard hub stg pp today sdb cdb idb ldb tdb fdb loy none).has_segments_module = false) ∧
    (∀ u : Unit,
      (dashboard hub stg pp today sdb cdb idb ldb tdb fdb loy (some u)).has_segments_module = true) ∧
    ((pipeline_report hub stg pp today none qdb).has_leads_module = false ∧
     (pipeline_report hub stg pp today none qdb).pipeline_value = 0 ∧
     (pipeline_report hub stg pp today none qdb).open_leads = 0 ∧
     (pipeline_report hub stg pp today none qdb).conversion_rate = 0 ∧
     (pipeline_report hub stg pp today none qdb).avg_close_days = 0 ∧
     (pipeline_report hub stg pp today none qdb).pipeline_by_stage = [] ∧
     (pipeline_report hub stg pp today none qdb).leads_by_source = [] ∧
     (pipeline_report hub stg pp today none qdb).loss_reasons = [] ∧
     (pipeline_report hub stg pp today none qdb).won_lost_monthly = []) ∧
    (∀ db : LeadsDB,
      (pipeline_report hub stg pp today (some db) qdb).has_leads_module = true) ∧
    ((pipeline_report hub stg pp today ldb none).has_quotes_module = false ∧
     (pipeline_report hub stg pp today ldb none).quotes_total = 0 ∧
     (pipeline_report hub stg pp today ldb none).quotes_value = 0 ∧
     (pipeline_report hub stg pp today ldb none).quotes_accepted = 0 ∧
     (pipeline_report hub stg pp today ldb none).quotes_acceptance_rate = 0) ∧
    (∀ db : QuotesDB,
      (pipeline_report hub stg pp today ldb (some db)).has_quotes_module = true) := by
  exact ⟨⟨rfl, rfl, rfl⟩, fun _ => rfl, ⟨rfl, rfl⟩, fun _ => rfl, ⟨rfl, rfl⟩,
    fun _ => rfl, rfl, fun _ => rfl, rfl, fun _ => rfl,
    ⟨rfl, rfl, rfl, rfl, rfl, rfl, rfl, rfl, rfl⟩, fun _ => rfl,
    ⟨rfl, rfl, rfl, rfl, rfl⟩, fun _ => rfl⟩

/-! ## C6: CSV degradation -/

/-- C6: for each CSV report type in {sales, products, customers}, an absent
backing collaborator or zero matching rows yields a well-formed CSV of
exactly the fixed header row and no data rows — never an error — with
content type `text/csv` and an attachment filename built from the report
type and the resolved window dates. -/
theorem claim_C6_export_csv (hub : Nat) (p : String) (today : Date)
    (sdb : Option SalesDB) (cdb : Option CustomersDB) (s e : Date)
    (hs : s = (get_date_range p today).1)
    (he : e = (get_date_range p today).2) :
    ((sdb = none ∨ ∃ db, sdb = some db ∧
        db.sales.filter (sale_in_export_window hub s e) = []) →
      (export_csv hub (some "sales") (some p) today sdb cdb).rows =
        [sales_csv_header] ∧
      (export_csv hub (some "sales") (some p) today sdb cdb).content_type =
        "text/csv" ∧
      (export_csv hub (some "sales") (some p) today sdb cdb).content_disposition =
        "attachment; filename=\"analytics_sales_" ++ dateIso s ++ "_" ++
          dateIso e ++ ".csv\"") ∧
    ((sdb = none ∨ ∃ db, sdb = some db ∧
        db.items.filter (item_completed_in_window hub s e) = []) →
      (export_csv hub (some "products") (some p) today sdb cdb).rows =
        [products_csv_header] ∧
      (export_csv hub (some "products") (some p) today sdb cdb).content_type =
        "text/csv" ∧
      (export_csv hub (some "products") (some p) today sdb cdb).content_disposition =
        "attachment; filename=\"analytics_products_" ++ dateIso s ++ "_" ++
          dateIso e ++ ".csv\"") ∧
    ((cdb = none ∨ ∃ db, cdb = some db ∧
        db.customers.filter (fun c => c.hub_id == hub && !c.is_deleted) = []) →
      (export_csv hub (some "customers") (some p) today sdb cdb).rows =
        [customers_csv_header] ∧
      (export_csv hub (some "customers") (some p) today sdb cdb).content_type =
        "text/csv" ∧
      (export_csv hub (some "customers") (some p) today sdb cdb).content_disposition =
        "attachment; filename=\"analytics_customers_" ++ dateIso s ++ "_" ++
          dateIso e ++ ".csv\"") := by
  subst hs he
  refine ⟨?_, ?_, ?_⟩
  · rintro (rfl | ⟨db, rfl, hempty⟩)
    · exact ⟨rfl, rfl, rfl⟩
    · refine ⟨?_, rfl, rfl⟩
      simp [export_csv, hempty, sortBy]
  · rintro (rfl | ⟨db, rfl, hempty⟩)
    · exact ⟨rfl, rfl, rfl⟩
    · refine ⟨?_, rfl, rfl⟩
      simp [export_csv, hempty, dedup, sortBy]
  · rintro (rfl | ⟨db, rfl, hempty⟩)
    · exact ⟨rfl, rfl, rfl⟩
    · refine ⟨?_, rfl, rfl⟩
      simp [export_csv, hempty, sortBy]

theorem claim_C6_export_csv_witness :
    (export_csv 1 (some "sales") (some "month") ⟨2, 5, 15⟩
        (some empty_sales_db) none).rows = [sales_csv_header] ∧
    (export_csv 1 (some "products") (some "month") ⟨2, 5, 15⟩
        (some empty_sales_db) none).rows = [products_csv_header] ∧
    (export_csv 1 (some "customers") (some "month") ⟨2, 5, 15⟩
        none (some ⟨[], [], []⟩)).rows = [customers_csv_header] ∧
    (export_csv 1 (some "sales") (some "month") ⟨2, 5, 15⟩
        (some empty_sales_db) none).content_type = "text/csv" := by
  have h1 := claim_C6_export_csv 1 "month" ⟨2, 5, 15⟩ (some empty_sales_db)
    none _ _ rfl rfl
  have h2 := claim_C6_export_csv 1 "month" ⟨2, 5, 15⟩ none
    (some ⟨[], [], []⟩) _ _ rfl rfl
  exact ⟨(h1.1 (Or.inr ⟨empty_sales_db, rfl, rfl⟩)).1,
    (h1.2.1 (Or.inr ⟨empty_sales_db, rfl, rfl⟩)).1,
    (h2.2.2 (Or.inr ⟨⟨[], [], []⟩, rfl, rfl⟩)).1,
    (h1.1 (Or.inr ⟨empty_sales_db, rfl, rfl⟩)).2.1⟩

/-! ## C9: chart data -/

/-- C9: for every chart type the chart-data endpoint returns label and value
sequences of equal length and echoes back the requested type and period; an
unrecognized chart type yields empty labels and values with no error. -/
theorem claim_C9_chart_data (hub : Nat) (t p : String) (today : Date)
    (sdb : Option SalesDB) (cdb : Option CustomersDB) (ldb : Option LeadsDB)
    (fdb : Option FeedbackDB) :
    (api_chart_data hub (some t) (some p) today sdb cdb ldb fdb).labels.length =
      (api_chart_data hub (some t) (some p) today sdb cdb ldb fdb).values.length ∧
    (api_chart_data hub (some t) (some p) today sdb cdb ldb fdb).chart_type = t ∧
    (api_chart_data hub (some t) (some p) today sdb cdb ldb fdb).period = p ∧
    (t ∉ ["revenue", "sales_count", "customers", "products",
        "pipeline_by_stage", "lifecycle", "nps_trend"] →
      (api_chart_data hub (some t) (some p) today sdb cdb ldb fdb).labels = [] ∧
      (api_chart_data hub (some t) (some p) today sdb cdb ldb fdb).values = []) := by
  refine ⟨?_, rfl, rfl, ?_⟩
  · by_cases h1 : t = "revenue"
    · subst h1
      cases sdb <;> simp [api_chart_data]
    by_cases h2 : t = "sales_count"
    · subst h2
      cases sdb <;> simp [api_chart_data]
    by_cases h3 : t = "customers"
    · subst h3
      cases cdb <;> simp [api_chart_data]
    by_cases h4 : t = "products"
    · subst h4
      cases sdb <;> simp [api_chart_data]
    by_cases h5 : t = "pipeline_by_stage"
    · subst h5
      cases ldb with
      | none => simp [api_chart_data]
      | some db =>
        cases hdp : default_pipeline_of hub db with
        | none => simp [api_chart_data, hdp]
        | some pl => simp [api_chart_data, hdp]
    by_cases h6 : t = "lifecycle"
    · subst h6
      cases cdb <;> simp [api_chart_data]
    by_cases h7 : t = "nps_trend"
    · subst h7
      cases fdb <;> simp [api_chart_data]
    · simp [api_chart_data, h1, h2, h3, h4, h5, h6, h7]
  · intro hmem
    simp only [List.mem_cons, List.not_mem_nil, or_false, not_or] at hmem
    obtain ⟨h1, h2, h3, h4, h5, h6, h7⟩ := hmem
    constructor <;> simp [api_chart_data, h1, h2, h3, h4, h5, h6, h7]

theorem claim_C9_chart_data_witness :
    (api_chart_data 1 (some "bogus") (some "month") ⟨2, 5, 15⟩
        none none none none).labels = [] ∧
    (api_chart_data 1 (some "bogus") (some "month") ⟨2, 5, 15⟩
        none none none none).values = [] ∧
    (api_chart_data 1 (some "bogus") (some "month") ⟨2, 5, 15⟩
        none none none none).chart_type = "bogus" := by
  have h := claim_C9_chart_data 1 "bogus" "month" ⟨2, 5, 15⟩ none none none none
  exact ⟨(h.2.2.2 (by decide)).1, (h.2.2.2 (by decide)).2, h.2.1⟩

/-! ## C10: CSV exports all statuses, aggregations only completed -/

/-- C10: the sales CSV export emits one data row per non-deleted sale of the
hub whose date falls in the window — with **no** status filter — while the
sales aggregation paths (dashboard totals, sales report totals, the revenue
chart series, the product rankings) only see sales/items with status
"completed". -/
theorem claim_C10_sales_status_scope (hub : Nat) (p : String) (today : Date)
    (db : SalesDB) (stg : AnalyticsSettings) (cdb cdb2 : Option CustomersDB)
    (idb : Option InventoryDB) (ldb ldb2 : Option LeadsDB)
    (tdb : Option SupportDB) (fdb fdb2 : Option FeedbackDB)
    (loy seg : Option Unit) (s e : Date)
    (hs : s = (get_date_range p today).1)
    (he : e = (get_date_range p today).2) :
    (export_csv hub (some "sales") (some p) today (some db) cdb).rows.length =
      (db.sales.filter (sale_in_export_window hub s e)).length + 1 ∧
    (dashboard hub stg (some p) today (some db) cdb2 idb ldb tdb fdb loy
        seg).total_sales =
      (db.sales.filter (sale_completed_in_window hub s e)).length ∧
    (sales_report hub stg (some p) today (some db)).total_sales =
      (db.sales.filter (sale_completed_in_window hub s e)).length ∧
    (db.sales.filter (sale_completed_in_window hub s e) = [] →
      (api_chart_data hub (some "revenue") (some p) today (some db) cdb2 ldb2
          fdb2).labels = [] ∧
      (api_chart_data hub (some "revenue") (some p) today (some db) cdb2 ldb2
          fdb2).values = []) ∧
    (db.items.filter (item_completed_in_window hub s e) = [] →
      (dashboard hub stg (some p) today (some db) cdb2 idb ldb tdb fdb loy
          seg).top_products = []) := by
  subst hs he
  refine ⟨?_, rfl, rfl, ?_, ?_⟩
  · simp [export_csv, length_sortBy]
  · intro h
    constructor <;> simp [api_chart_data, h, dedup, sortBy]
  · intro h
    have hb : (dashboard hub stg (some p) today (some db) cdb2 idb ldb tdb fdb
        loy seg).top_products =
        top_products_of db.items hub (get_date_range p today).1
          (get_date_range p today).2 5 := rfl
    rw [hb]
    simp [top_products_of, h, dedup, sortBy]

def c10_db : SalesDB :=
  ⟨[mk_sale ⟨2, 5, 10⟩ 100 "draft"],
   [mk_item ⟨2, 5, 10⟩ "Widget" 1 100 "draft"], []⟩

theorem claim_C10_sales_status_scope_witness :
    (export_csv 1 (some "sales") (some "month") ⟨2, 5, 15⟩ (some c10_db)
        none).rows.length = 2 ∧
    (dashboard 1 default_settings (some "month") ⟨2, 5, 15⟩ (some c10_db)
        none none none none none none none).total_sales = 0 ∧
    (sales_report 1 default_settings (some "month") ⟨2, 5, 15⟩
        (some c10_db)).total_sales = 0 ∧
    (api_chart_data 1 (some "revenue") (some "month") ⟨2, 5, 15⟩ (some c10_db)
        none none none).values = [] ∧
    (dashboard 1 default_settings (some "month") ⟨2, 5, 15⟩ (some c10_db)
        none none none none none none none).top_products = [] := by
  have h := claim_C10_sales_status_scope 1 "month" ⟨2, 5, 15⟩ c10_db
    default_settings none none none none none none none none none none _ _
    rfl rfl
  refine ⟨?_, ?_, ?_, ?_, ?_⟩
  · rw [h.1]
    decide
  · rw [h.2.1]
    decide
  · rw [h.2.2.1]
    decide
  · exact (h.2.2.2.1 (by decide)).2
  · exact h.2.2.2.2 (by decide)

end Analytics
